import Mathlib

/-!
Verification development for `photo_organizer` (`src/main.py`).

The Python program is shallowly embedded: JSON attribute records become
association lists of string/number values, the filesystem becomes the list of
existing file paths, and the fallible library operations (`glob.glob`,
`re.search`, `int`, `datetime.strptime`, `shutil`) are modelled as total Lean
functions returning `Except`/`Option` values, restricted to the construct
subset those calls actually exercise in this program (documented at each
definition).
-/

namespace PhotoOrganizer

/-- A JSON attribute value as it reaches this program: a string or a number. -/
inductive Value where
  | str (s : String)
  | num (n : Int)
deriving DecidableEq, Repr

/-- An attribute record (one `exiftool` JSON object): an association list from
attribute names to values.  Lookup takes the first matching key, matching
Python `dict` semantics for duplicate-free lists. -/
abbrev Exif := List (String × Value)

/-- `d.get(k)` / `d[k]` presence test: first binding of `k`, if any. -/
def lookupKey (m : Exif) (k : String) : Option Value :=
  match m with
  | [] => none
  | (k', v) :: rest => if k' = k then some v else lookupKey rest k

/-- `k in d`. -/
def hasKey (m : Exif) (k : String) : Bool :=
  (lookupKey m k).isSome

/-- `d[k] = v`: replace the first binding of `k`, or append a new one
(Python dict assignment). -/
def dinsert (m : Exif) (k : String) (v : Value) : Exif :=
  match m with
  | [] => [(k, v)]
  | (k', v') :: rest => if k' = k then (k, v) :: rest else (k', v') :: dinsert rest k v

/-- `str(value)` as used by `string.Formatter` on a string or int field. -/
def pyStr : Value → String
  | .str s => s
  | .num n => toString n

/-- Observable lookup of the `defaultdict(lambda: 'Unknown')` used in
`manipulate_file`: a missing key reads as the string `"Unknown"`.
(The Python `defaultdict` also inserts the default on a miss; that insertion
is invisible to every later lookup, so the embedding omits it.) -/
def lookupInfo (m : Exif) (k : String) : Value :=
  (lookupKey m k).getD (.str "Unknown")

/-- A parsed `filename_format` template: the literal/field decomposition that
`string.Formatter().vformat` performs on the format string. -/
inductive TItem where
  | lit (s : String)
  | field (name : String)
deriving DecidableEq, Repr

abbrev Template := List TItem

/-- `string.Formatter().vformat(filename_format, (), photo_info)` over a
parsed template, with the `defaultdict` `'Unknown'` fallback of the mapping. -/
def vformat (fmt : Template) (info : Exif) : String :=
  fmt.foldl (fun acc it =>
    acc ++ (match it with
      | .lit s => s
      | .field n => pyStr (lookupInfo info n))) ""

/-- `os.path.join(a, b)` for the two-argument form used by the program:
`b` if `b` is absolute, otherwise `a` and `b` with exactly one separator. -/
def ospath_join (a b : String) : String :=
  if b.toList.head? = some '/' then b
  else if a.toList = [] ∨ a.toList.getLast? = some '/' then a ++ b
  else a ++ "/" ++ b

/-! ### Glob matching (`glob.glob`)

The pattern handed to `glob.glob` is the concrete rendering of
`filename_format` with the branch field set to `[0-9]*`, joined to the output
base path.  The embedding supports the wildcard constructs that rendering can
contain: `*`, `?` and the digit class `[0-9]`; every other character is
literal (as it is for `fnmatch` on the characters this program renders).
The filesystem is the list of existing file paths. -/

inductive GTok where
  | lit (c : Char)
  | star
  | anyOne
  | digit
deriving DecidableEq, Repr

/-- Tokenize one glob component. -/
def globToks : List Char → List GTok
  | '[' :: '0' :: '-' :: '9' :: ']' :: rest => .digit :: globToks rest
  | '*' :: rest => .star :: globToks rest
  | '?' :: rest => .anyOne :: globToks rest
  | c :: rest => .lit c :: globToks rest
  | [] => []

/-- Fueled `fnmatch` matcher; every recursive call shrinks
`ts.length + s.length`, so `gmatchFuel ts s` below always has enough fuel. -/
def gmatchF (fuel : Nat) (ts : List GTok) (s : List Char) : Bool :=
  match fuel with
  | 0 => false
  | fuel + 1 =>
    match ts, s with
    | [], [] => true
    | [], _ :: _ => false
    | .lit c :: ts', d :: s' => c = d && gmatchF fuel ts' s'
    | .lit _ :: _, [] => false
    | .anyOne :: ts', _ :: s' => gmatchF fuel ts' s'
    | .anyOne :: _, [] => false
    | .digit :: ts', d :: s' => d.isDigit && gmatchF fuel ts' s'
    | .digit :: _, [] => false
    | .star :: ts', [] => gmatchF fuel ts' []
    | .star :: ts', d :: s' => gmatchF fuel ts' (d :: s') || gmatchF fuel (.star :: ts') s'

def gmatch (ts : List GTok) (s : List Char) : Bool :=
  gmatchF (ts.length + s.length + 1) ts s

/-- `fnmatch` of one path component against one pattern component. -/
def fnmatchComp (pat s : List Char) : Bool :=
  gmatch (globToks pat) s

/-- Split a path or pattern on `/`. -/
def splitSlash : List Char → List (List Char)
  | [] => [[]]
  | c :: rest =>
    let r := splitSlash rest
    if c = '/' then [] :: r
    else
      match r with
      | [] => [[c]]
      | g :: gs => (c :: g) :: gs

/-- One component of a glob: hidden entries (leading `.`) are only matched by
a pattern that itself starts with a literal `.`. -/
def globCompMatch (pat s : List Char) : Bool :=
  match s with
  | '.' :: _ =>
    match pat with
    | '.' :: _ => fnmatchComp pat s
    | _ => false
  | _ => fnmatchComp pat s

/-- Whether an existing path matches a glob pattern: the same number of `/`
separated components, matched componentwise. -/
def globPathMatch (pattern path : String) : Bool :=
  let ps := splitSlash pattern.toList
  let ss := splitSlash path.toList
  ps.length == ss.length &&
    (List.zip ps ss).all (fun c => globCompMatch c.1 c.2)

/-- `glob.glob(pattern)` over the modelled filesystem `fs` (the list of
existing file paths): the matching paths, in `fs` order. -/
def globFilter (fs : List String) (pattern : String) : List String :=
  fs.filter (fun p => globPathMatch pattern p)

/-! ### Regex search (`re.search`)

The search pattern is the rendering of `filename_format` with the branch
field set to the capture group `([0-9]*)`.  The embedding supports exactly
the constructs such a rendering submits to `re`: the capture group
`([0-9]*)`, the class `[0-9]` (starred or not), `.` (any character), `^`
(start-of-string anchor) and literal characters.  Matching is leftmost with
greedy backtracking, and the reported capture is that of the first (leftmost)
group, as `m.group(1)` reads it. -/

inductive RTok where
  | lit (c : Char)
  | dot
  | caret
  | digit
  | digitStar
  | capDigitStar
deriving DecidableEq, Repr

/-- Tokenize a search pattern. -/
def reToks : List Char → List RTok
  | '(' :: '[' :: '0' :: '-' :: '9' :: ']' :: '*' :: ')' :: rest => .capDigitStar :: reToks rest
  | '[' :: '0' :: '-' :: '9' :: ']' :: '*' :: rest => .digitStar :: reToks rest
  | '[' :: '0' :: '-' :: '9' :: ']' :: rest => .digit :: reToks rest
  | '.' :: rest => .dot :: reToks rest
  | '^' :: rest => .caret :: reToks rest
  | c :: rest => .lit c :: reToks rest
  | [] => []

/-- Length of the longest prefix of digits. -/
def countDigits : List Char → Nat
  | [] => 0
  | c :: rest => if c.isDigit then countDigits rest + 1 else 0

/-- Match the token list against `s` (a suffix of the subject starting at
absolute position `pos`); `cap` carries the capture of the first group once
set.  Returns `none` on failure, otherwise the capture state.  Stars try the
longest width first and backtrack (greedy). -/
def rmatch (ts : List RTok) (s : List Char) (pos : Nat) (cap : Option String) :
    Option (Option String) :=
  match ts with
  | [] => some cap
  | .lit c :: ts' =>
    match s with
    | [] => none
    | d :: s' => if c = d then rmatch ts' s' (pos + 1) cap else none
  | .dot :: ts' =>
    match s with
    | [] => none
    | _ :: s' => rmatch ts' s' (pos + 1) cap
  | .caret :: ts' => if pos = 0 then rmatch ts' s pos cap else none
  | .digit :: ts' =>
    match s with
    | [] => none
    | d :: s' => if d.isDigit then rmatch ts' s' (pos + 1) cap else none
  | .digitStar :: ts' =>
    let k0 := countDigits s
    (List.range (k0 + 1)).findSome? (fun i =>
      rmatch ts' (s.drop (k0 - i)) (pos + (k0 - i)) cap)
  | .capDigitStar :: ts' =>
    let k0 := countDigits s
    (List.range (k0 + 1)).findSome? (fun i =>
      rmatch ts' (s.drop (k0 - i)) (pos + (k0 - i))
        (match cap with
         | some c => some c
         | none => some (String.mk (s.take (k0 - i)))))

/-- Leftmost search: try each start position in order. -/
def rsearchAux (ts : List RTok) (s : List Char) (pos : Nat) : Option (Option String) :=
  match rmatch ts s pos none with
  | some r => some r
  | none =>
    match s with
    | [] => none
    | _ :: s' => rsearchAux ts s' (pos + 1)

/-- `re.search(pattern, subject)` followed by `m.group(1)`:
`none` when there is no match at all (`m` is `None`); `some none` when the
pattern matched but contained no group; `some (some c)` when group 1
captured `c`. -/
def reSearchGroup1 (pattern subject : String) : Option (Option String) :=
  rsearchAux (reToks pattern.toList) subject.toList 0

/-! ### Exceptions -/

/-- The Python exceptions the modelled paths can raise.  Any of them, when
uncaught, aborts the run. -/
inductive PyErr where
  | keyError
  | typeError
  | valueError
  | attributeError
  | indexError
  | fileNotFoundError
deriving DecidableEq, Repr

/-! ### `branch_no` -/

/-- The loop body of `branch_no`:
`m = re.search(bn_search, fn); int(m.group(1))`.
`m` being `None` makes `.group` raise `AttributeError`; a groupless pattern
makes `group(1)` raise `IndexError`; `int('')` raises `ValueError`. -/
def digitVal (c : Char) : Nat := c.toNat - '0'.toNat

/-- Membership of `c` in the regex character range `[lo-hi]` (by code point,
as `re` and `_strptime` compare). -/
def charIn (lo hi c : Char) : Bool := lo.toNat ≤ c.toNat && c.toNat ≤ hi.toNat

def pyIntDigits (s : String) : Option Nat :=
  match s.toList with
  | [] => none
  | l => if l.all Char.isDigit then some (l.foldl (fun a c => a * 10 + digitVal c) 0) else none

def extractBn (bn_search fn : String) : Except PyErr Nat :=
  match reSearchGroup1 bn_search fn with
  | none => .error .attributeError
  | some none => .error .indexError
  | some (some c) =>
    match pyIntDigits c with
    | some n => .ok n
    | none => .error .valueError

/-- `branch_no(output_base_path, filename_format, photo_info)`.

The Python function mutates `photo_info['bn']` (first to the glob wildcard,
then to the capture pattern) and returns an int; the embedding passes the
mapping explicitly and returns the final mapping next to the result. -/
def branch_no (fs : List String) (output_base_path : String)
    (filename_format : Template) (photo_info : Exif) : Except PyErr (Nat × Exif) :=
  let info1 := dinsert photo_info "bn" (.str "[0-9]*")
  let new_name := vformat filename_format info1
  let new_path := ospath_join output_base_path new_name
  let files := globFilter fs new_path
  if files.isEmpty then .ok (0, info1)
  else
    let info2 := dinsert info1 "bn" (.str "([0-9]*)")
    let bn_search := vformat filename_format info2
    (files.foldlM (fun bn fn => (extractBn bn_search fn).map (fun n => max bn n)) 0).map
      (fun bn => (bn + 1, info2))

/-- The glob pattern `branch_no` scans with (pattern-mode rendering with
`bn = "[0-9]*"`, joined with the base directory). -/
def bnGlobPattern (output_base_path : String) (filename_format : Template)
    (photo_info : Exif) : String :=
  ospath_join output_base_path
    (vformat filename_format (dinsert photo_info "bn" (.str "[0-9]*")))

/-- The capture pattern `branch_no` extracts with (pattern-mode rendering
with `bn = "([0-9]*)"`, not joined with the base directory). -/
def bnSearchPattern (filename_format : Template) (photo_info : Exif) : String :=
  vformat filename_format (dinsert photo_info "bn" (.str "([0-9]*)"))

/-! ### `parse_datetime` -/

/-- Python truthiness of an attribute value (`''` and `0` are falsy), as the
`or` chain over the date fields tests it; `none` is an absent key (`None`). -/
def pyTruthy : Option Value → Bool
  | none => false
  | some (.str s) => s ≠ ""
  | some (.num n) => n ≠ 0

/-- `a or b`. -/
def pyOrV (a b : Option Value) : Option Value :=
  if pyTruthy a then a else b

/-- The date-source chain of `manipulate_file`:
`exif.get('CreateDate') or exif.get('DateCreated') or
 exif.get('DateTimeOriginal') or exif.get('FileModifyDate')`. -/
def dateChain (exif : Exif) : Option Value :=
  pyOrV (lookupKey exif "CreateDate")
    (pyOrV (lookupKey exif "DateCreated")
      (pyOrV (lookupKey exif "DateTimeOriginal")
        (lookupKey exif "FileModifyDate")))

/-- A parsed calendar timestamp. -/
structure DT where
  year : Nat
  month : Nat
  day : Nat
  hour : Nat
  minute : Nat
  second : Nat
deriving DecidableEq, Repr

/-- The `%m` directive of `_strptime` (`1[0-2]|0[1-9]|[1-9]`), committed
left-to-right; the follower is always a separator, so committing agrees with
regex backtracking here. -/
def parseMonth : List Char → Option (Nat × List Char)
  | '1' :: c :: rest =>
    if charIn '0' '2' c then some (10 + digitVal c, rest) else some (1, c :: rest)
  | '0' :: c :: rest =>
    if charIn '1' '9' c then some (digitVal c, rest) else none
  | c :: rest =>
    if charIn '1' '9' c then some (digitVal c, rest) else none
  | [] => none

/-- The `%d` directive (`3[01]|[12]\d|0[1-9]|[1-9]`). -/
def parseDay : List Char → Option (Nat × List Char)
  | '3' :: c :: rest =>
    if charIn '0' '1' c then some (30 + digitVal c, rest) else some (3, c :: rest)
  | '1' :: c :: rest =>
    if charIn '0' '9' c then some (10 + digitVal c, rest) else some (1, c :: rest)
  | '2' :: c :: rest =>
    if charIn '0' '9' c then some (20 + digitVal c, rest) else some (2, c :: rest)
  | '0' :: c :: rest =>
    if charIn '1' '9' c then some (digitVal c, rest) else none
  | c :: rest =>
    if charIn '1' '9' c then some (digitVal c, rest) else none
  | [] => none

/-- The `%H` directive (`2[0-3]|[01]\d|\d`). -/
def parseHour : List Char → Option (Nat × List Char)
  | '2' :: c :: rest =>
    if charIn '0' '3' c then some (20 + digitVal c, rest) else some (2, c :: rest)
  | '0' :: c :: rest =>
    if charIn '0' '9' c then some (digitVal c, rest) else some (0, c :: rest)
  | '1' :: c :: rest =>
    if charIn '0' '9' c then some (10 + digitVal c, rest) else some (1, c :: rest)
  | c :: rest =>
    if charIn '0' '9' c then some (digitVal c, rest) else none
  | [] => none

/-- The `%M` directive (`[0-5]\d|\d`). -/
def parseMin : List Char → Option (Nat × List Char)
  | a :: b :: rest =>
    if charIn '0' '5' a && charIn '0' '9' b then some (digitVal a * 10 + digitVal b, rest)
    else if charIn '0' '9' a then some (digitVal a, b :: rest)
    else none
  | [a] => if charIn '0' '9' a then some (digitVal a, []) else none
  | [] => none

/-- The `%S` directive (`6[01]|[0-5]\d|\d`). -/
def parseSec : List Char → Option (Nat × List Char)
  | '6' :: c :: rest =>
    if charIn '0' '1' c then some (60 + digitVal c, rest) else some (6, c :: rest)
  | a :: b :: rest =>
    if charIn '0' '5' a && charIn '0' '9' b then some (digitVal a * 10 + digitVal b, rest)
    else if charIn '0' '9' a then some (digitVal a, b :: rest)
    else none
  | [a] => if charIn '0' '9' a then some (digitVal a, []) else none
  | [] => none

def expectChar (c : Char) : List Char → Option (List Char)
  | d :: rest => if d = c then some rest else none
  | [] => none

def isLeap (y : Nat) : Bool :=
  y % 4 = 0 && (y % 100 ≠ 0 || y % 400 = 0)

def daysInMonth (y m : Nat) : Nat :=
  if m = 2 then (if isLeap y then 29 else 28)
  else if m = 4 ∨ m = 6 ∨ m = 9 ∨ m = 11 then 30
  else 31

/-- The `%Y` directive of `_strptime`: exactly four digits. -/
def parseYear4 : List Char → Option (Nat × List Char)
  | y1 :: y2 :: y3 :: y4 :: rest =>
    if charIn '0' '9' y1 && charIn '0' '9' y2 && charIn '0' '9' y3 && charIn '0' '9' y4 then
      some (((digitVal y1 * 10 + digitVal y2) * 10 + digitVal y3) * 10 + digitVal y4, rest)
    else none
  | _ => none

/-- Python `\s` on `str` patterns: exactly the code points `str.isspace`
accepts (`re` and `str.isspace` agree on this set). -/
def pyIsSpace (c : Char) : Bool :=
  let n := c.toNat
  (0x09 ≤ n && n ≤ 0x0d) || (0x1c ≤ n && n ≤ 0x20) || n = 0x85 || n = 0xa0 ||
    n = 0x1680 || (0x2000 ≤ n && n ≤ 0x200a) || n = 0x2028 || n = 0x2029 ||
    n = 0x202f || n = 0x205f || n = 0x3000

def skipSpaces : List Char → List Char
  | c :: rest => if pyIsSpace c then skipSpaces rest else c :: rest
  | [] => []

/-- The `\s+` that `_strptime` substitutes for the whitespace in the format:
one or more whitespace characters.  Committing to the maximal run agrees
with the regex's greedy-with-backtracking `\s+`, because the following
directive (`%H`) starts with a digit and no whitespace character is a
digit. -/
def parseSpace1 : List Char → Option (List Char)
  | c :: rest => if pyIsSpace c then some (skipSpaces rest) else none
  | [] => none

/-- `datetime.strptime(s, '%Y:%m:%d %H:%M:%S')`: the directive regexes of
`_strptime`, literal `:` separators, `\s+` for the format's space,
whole-string consumption, then the `datetime` constructor's range
validation (year at least 1, day within the month, second at most 59). -/
def strptime19 (l : List Char) : Option DT := do
  let (y, r1) ← parseYear4 l
  let r2 ← expectChar ':' r1
  let (mo, r3) ← parseMonth r2
  let r4 ← expectChar ':' r3
  let (d, r5) ← parseDay r4
  let r6 ← parseSpace1 r5
  let (hh, r7) ← parseHour r6
  let r8 ← expectChar ':' r7
  let (mi, r9) ← parseMin r8
  let r10 ← expectChar ':' r9
  let (s, r11) ← parseSec r10
  if r11 = [] ∧ 1 ≤ y ∧ 1 ≤ d ∧ d ≤ daysInMonth y mo ∧ s ≤ 59 then
    some ⟨y, mo, d, hh, mi, s⟩
  else none

/-- Two-digit zero padding, as `strftime('%m')` and friends produce. -/
def pad2 (n : Nat) : String :=
  if n < 10 then "0" ++ toString n else toString n

/-- `strftime('%Y')` on CPython/glibc: the year as an unpadded decimal
number (four characters only when the year is at least 1000). -/
def fmtYear (n : Nat) : String := toString n

/-- The six date fields emitted on a successful parse. -/
def dtFields (dt : DT) : List (String × Value) :=
  [("y", .str (fmtYear dt.year)), ("m", .str (pad2 dt.month)), ("d", .str (pad2 dt.day)),
   ("H", .str (pad2 dt.hour)), ("M", .str (pad2 dt.minute)), ("S", .str (pad2 dt.second))]

/-- The fallback sentinel for an absent or unparsable date. -/
def sentinelFields : List (String × Value) :=
  [("y", .str "0000"), ("m", .str "00"), ("d", .str "00"),
   ("H", .str "00"), ("M", .str "00"), ("S", .str "00")]

/-- `parse_datetime(createdate)`.  A `None` or non-string argument makes the
slice `createdate[:19]` raise, and any `strptime` failure raises too; the
bare `except` turns every failure into the sentinel, so the function is
total. -/
def parse_datetime (createdate : Option Value) : List (String × Value) :=
  match createdate with
  | some (.str s) =>
    match strptime19 (s.toList.take 19) with
    | some dt => dtFields dt
    | none => sentinelFields
  | _ => sentinelFields

/-! ### `manipulate_file` -/

/-- `v.replace(' ', '_') if isinstance(v, str) else v` on one value. -/
def pyReplSpace (s : String) : String :=
  String.mk (s.toList.map (fun c => if c = ' ' then '_' else c))

def normVal : Value → Value
  | .str s => .str (pyReplSpace s)
  | v => v

/-- Lines 84-88 of `main.py`: the normalized mapping built from the record
(space-to-underscore on string values; the `defaultdict` `'Unknown'` default
lives in `lookupInfo`). -/
def normalizeExif (exif : Exif) : Exif :=
  exif.map (fun kv => (kv.1, normVal kv.2))

/-- `photo_info.update(d)`: assign every binding of `d` in order. -/
def updateAll (m : Exif) (upd : List (String × Value)) : Exif :=
  upd.foldl (fun m kv => dinsert m kv.1 kv.2) m

/-- The `photo_info` mapping of `manipulate_file` just before branch
resolution: normalized record plus the six date fields. -/
def photoInfoOf (exif : Exif) : Exif :=
  updateAll (normalizeExif exif) (parse_datetime (dateChain exif))

/-- Membership of a path in the filesystem listing. -/
def strMem (l : List String) (s : String) : Bool :=
  l.any (fun t => t = s)

/-- Put a file at `p`: overwriting an existing path leaves the path set
unchanged. -/
def fsPlace (fs : List String) (p : String) : List String :=
  if strMem fs p then fs else fs ++ [p]

/-- `manipulate_file(exif, output_base_path, filename_format, is_move)` over
the modelled filesystem: returns the filesystem after the copy or move.
Directory creation (`os.makedirs`) is idempotent and not tracked, the
filesystem listing only files.  A missing `SourceFile` makes `shutil` raise
`TypeError`; a nonexistent source raises `FileNotFoundError`. -/
def manipulate_file (fs : List String) (exif : Exif) (output_base_path : String)
    (filename_format : Template) (is_move : Bool) : Except PyErr (List String) := do
  let photo_info := photoInfoOf exif
  let (bn, photo_info) ← branch_no fs output_base_path filename_format photo_info
  let photo_info := dinsert photo_info "bn" (.num (bn : Int))
  let new_name := vformat filename_format photo_info
  let new_path := ospath_join output_base_path new_name
  match lookupKey exif "SourceFile" with
  | some (.str src_path) =>
    if strMem fs src_path then
      if is_move then .ok (fsPlace (fs.filter (fun p => p ≠ src_path)) new_path)
      else .ok (fsPlace fs new_path)
    else .error .fileNotFoundError
  | _ => .error .typeError

/-- The destination path `manipulate_file` computes for a record (the
concrete-mode rendering with `bn` overwritten by `branch_no`'s result). -/
def destPath (fs : List String) (exif : Exif) (output_base_path : String)
    (filename_format : Template) : Except PyErr String :=
  (branch_no fs output_base_path filename_format (photoInfoOf exif)).map
    (fun r => ospath_join output_base_path
      (vformat filename_format (dinsert r.2 "bn" (.num (r.1 : Int)))))

/-! ### `is_movie` and the batch driver -/

def isPrefixList : List Char → List Char → Bool
  | [], _ => true
  | _ :: _, [] => false
  | a :: as, b :: bs => a = b && isPrefixList as bs

/-- `needle in hay` for strings (substring containment). -/
def isSubList (n : List Char) : List Char → Bool
  | [] => isPrefixList n []
  | c :: h' => isPrefixList n (c :: h') || isSubList n h'

def strContainsSub (hay needle : String) : Bool :=
  isSubList needle.toList hay.toList

/-- `is_movie(exif)`: some key contains the substring `FrameRate`. -/
def is_movie (exif : Exif) : Bool :=
  0 < ((exif.map Prod.fst).filter (fun k => strContainsSub k "FrameRate")).length

/-- The output configuration `load_configure` returns (modelled as given:
configuration reading is out of the embedded core). -/
structure Config where
  filename_format : Template
  output_photo_base : String
  output_video_base : String

/-- The base-directory selection of `main`'s loop. -/
def output_base_for (cfg : Config) (exif : Exif) : String :=
  if is_movie exif then cfg.output_video_base else cfg.output_photo_base

def isStrV : Value → Bool
  | .str _ => true
  | .num _ => false

/-- `FileName` sort key of a record, after presence has been checked. -/
def fileNameStr (e : Exif) : String :=
  match lookupKey e "FileName" with
  | some (.str s) => s
  | _ => ""

def fileNameNum (e : Exif) : Int :=
  match lookupKey e "FileName" with
  | some (.num n) => n
  | _ => 0

/-- Python string comparison: lexicographic on code points. -/
def charLtB (a b : Char) : Bool := a.toNat < b.toNat

def strLtB : List Char → List Char → Bool
  | [], [] => false
  | [], _ :: _ => true
  | _ :: _, [] => false
  | a :: as, b :: bs => if a = b then strLtB as bs else charLtB a b

/-- Stable insertion into a sorted list (equal keys keep earlier elements
first), matching the stable ascending order `sorted` produces. -/
def insertBy (lt : Exif → Exif → Bool) (x : Exif) : List Exif → List Exif
  | [] => [x]
  | y :: ys => if lt x y then x :: y :: ys else y :: insertBy lt x ys

def sortByKey (lt : Exif → Exif → Bool) (l : List Exif) : List Exif :=
  l.foldl (fun acc x => insertBy lt x acc) []

/-- The decorate step of `sorted(records, key=lambda x: x['FileName'])`: the
key lookup runs on every record in input order, and a record without
`FileName` raises `KeyError`. -/
def sortKeys : List Exif → Except PyErr (List Value)
  | [] => .ok []
  | e :: rest =>
    match lookupKey e "FileName" with
    | some v => (sortKeys rest).map (fun vs => v :: vs)
    | none => .error .keyError

/-- `sorted(records, key=lambda x: x['FileName'])`: every record must have a
`FileName`; comparing a string key with a number key raises `TypeError`;
otherwise the stable ascending sort by the key. -/
def sortExifs (l : List Exif) : Except PyErr (List Exif) := do
  let ks ← sortKeys l
  if ks.any isStrV && ks.any (fun v => !isStrV v) then .error .typeError
  else if ks.any (fun v => !isStrV v) then
    .ok (sortByKey (fun a b => decide (fileNameNum a < fileNameNum b)) l)
  else .ok (sortByKey (fun a b => strLtB (fileNameStr a).toList (fileNameStr b).toList) l)

/-- `main(source_dir, input_json, is_move)` after JSON parsing, over the
modelled filesystem: sort by `FileName`, then for each record skip it if it
carries `Error`, otherwise route it by `is_movie` and place it. -/
def main (fs : List String) (input : List Exif) (cfg : Config) (is_move : Bool) :
    Except PyErr (List String) := do
  let exifs ← sortExifs input
  exifs.foldlM (fun fs exif =>
    if hasKey exif "Error" then .ok fs
    else manipulate_file fs exif (output_base_for cfg exif) cfg.filename_format is_move) fs

/-! ### Concrete demonstration data -/

/-- The default `filename_format`
`{y}{m}{d}/{Model}/{y}{m}{d}{H}{M}{S}-{bn}.{FileTypeExtension}`, parsed. -/
def demoFmt : Template :=
  [.field "y", .field "m", .field "d", .lit "/", .field "Model", .lit "/",
   .field "y", .field "m", .field "d", .field "H", .field "M", .field "S",
   .lit "-", .field "bn", .lit ".", .field "FileTypeExtension"]

def demoExifA : Exif :=
  [("FileName", .str "a.jpg"), ("SourceFile", .str "/in/a.jpg"),
   ("Model", .str "Cam"), ("CreateDate", .str "2020:01:02 03:04:05"),
   ("FileTypeExtension", .str "jpg")]

def demoExifB : Exif :=
  [("FileName", .str "b.jpg"), ("SourceFile", .str "/in/b.jpg"),
   ("Model", .str "Cam"), ("CreateDate", .str "2020:01:02 03:04:05"),
   ("FileTypeExtension", .str "jpg")]

def demoCfg : Config := ⟨demoFmt, "/out", "/outv"⟩

/-- A destination tree already holding branch numbers 0 and 1 for the
rendered prefix of `demoExifA`. -/
def demoFs2 : List String :=
  ["/out/20200102/Cam/20200102030405-0.jpg",
   "/out/20200102/Cam/20200102030405-1.jpg"]

/-- A destination tree with no match for the rendered prefix of
`demoExifA`, holding only the two source files. -/
def demoFs0 : List String := ["/in/a.jpg", "/in/b.jpg"]

/-- A record that failed extraction and carries no `FileName`. -/
def demoErrNoName : Exif :=
  [("SourceFile", .str "/in/bad"), ("Error", .str "Unknown file type")]

/-- A record that failed extraction but does carry a `FileName` (sorting
before `demoExifA`). -/
def demoErrNamed : Exif := [("Error", .str "x"), ("FileName", .str "0err")]

/-- A template whose base directory contains digits followed by the
template's literal suffix: the capture pattern then matches inside the base
path of every scanned file. -/
def cexFmt : Template := [.field "bn", .lit "b"]

def cexExif : Exif := [("FileName", .str "x.jpg"), ("SourceFile", .str "/in/x.jpg")]

/-- Files at branch numbers 5 and 2 under the `/o1b` base. -/
def cexFs : List String := ["/o1b/5b", "/o1b/2b"]

/-- A template whose rendering contains `^`: a literal for the glob, an
anchor for the regex, so a glob-matched file has no regex match at all. -/
def caretFmt : Template := [.lit "a^", .field "bn"]

/-- The date-source selection as the spec words it (§4.1): the first
non-empty value among the four candidates, in priority order.  Stated from
the spec, to be compared with the `or` chain the code uses. -/
def specFirstDate (exif : Exif) : Option Value :=
  [lookupKey exif "CreateDate", lookupKey exif "DateCreated",
   lookupKey exif "DateTimeOriginal", lookupKey exif "FileModifyDate"].findSome?
    (fun ov => match ov with
      | some v => if pyTruthy (some v) then some v else none
      | none => none)

/-! ### Helper lemmas -/

theorem lookupKey_dinsert_self (m : Exif) (k : String) (v : Value) :
    lookupKey (dinsert m k v) k = some v := by
  induction m with
  | nil => simp [dinsert, lookupKey]
  | cons hd tl ih =>
    obtain ⟨k', v'⟩ := hd
    by_cases h : k' = k
    · simp [dinsert, h, lookupKey]
    · simp [dinsert, h, lookupKey, ih]

theorem lookupKey_dinsert_ne (m : Exif) (k k' : String) (v : Value) (h : k' ≠ k) :
    lookupKey (dinsert m k v) k' = lookupKey m k' := by
  have hne : ¬ k = k' := fun hh => h hh.symm
  induction m with
  | nil => simp [dinsert, lookupKey, hne]
  | cons hd tl ih =>
    obtain ⟨k0, v0⟩ := hd
    by_cases h0 : k0 = k
    · subst h0
      simp [dinsert, lookupKey, hne]
    · simp [dinsert, h0, lookupKey, ih]

theorem dinsert_dinsert (m : Exif) (k : String) (v w : Value) :
    dinsert (dinsert m k v) k w = dinsert m k w := by
  induction m with
  | nil => simp [dinsert]
  | cons hd tl ih =>
    obtain ⟨k', v'⟩ := hd
    by_cases h : k' = k
    · simp [dinsert, h]
    · simp [dinsert, h, ih]

theorem vformat_append (l1 l2 : Template) (info : Exif) :
    vformat (l1 ++ l2) info = vformat l1 info ++ vformat l2 info := by
  have gen : ∀ (l : Template) (acc : String),
      l.foldl (fun acc it =>
        acc ++ (match it with
          | .lit s => s
          | .field n => pyStr (lookupInfo info n))) acc
      = acc ++ l.foldl (fun acc it =>
        acc ++ (match it with
          | .lit s => s
          | .field n => pyStr (lookupInfo info n))) "" := by
    intro l
    induction l with
    | nil => intro acc; simp
    | cons hd tl ih =>
      intro acc
      simp only [List.foldl_cons]
      rw [ih, ih (_ ++ _)]
      simp [String.append_assoc]
  simp only [vformat, List.foldl_append]
  rw [gen l2]


theorem branch_no_of_empty_glob (fs : List String) (base : String) (fmt : Template)
    (info : Exif) (h : globFilter fs (bnGlobPattern base fmt info) = []) :
    branch_no fs base fmt info = .ok (0, dinsert info "bn" (.str "[0-9]*")) := by
  unfold branch_no
  simp only [bnGlobPattern] at h
  simp [h]

theorem branch_no_of_glob (fs : List String) (base : String) (fmt : Template)
    (info : Exif) (h : globFilter fs (bnGlobPattern base fmt info) ≠ []) :
    branch_no fs base fmt info =
      ((globFilter fs (bnGlobPattern base fmt info)).foldlM
        (fun bn fn => (extractBn (bnSearchPattern fmt info) fn).map (fun n => max bn n)) 0).map
        (fun bn => (bn + 1, dinsert info "bn" (.str "([0-9]*)"))) := by
  unfold branch_no
  simp only [bnGlobPattern] at h
  simp only [bnGlobPattern, bnSearchPattern, dinsert_dinsert]
  simp [List.isEmpty_iff, h]

theorem foldlM_max_of_mapM (ex : String → Except PyErr Nat) :
    ∀ (files : List String) (ns : List Nat) (a : Nat), files.mapM ex = .ok ns →
      files.foldlM (fun bn fn => (ex fn).map (fun n => max bn n)) a
        = .ok (ns.foldl (fun b n => max b n) a) := by
  intro files
  induction files with
  | nil =>
    intro ns a h
    simp only [List.mapM_nil, pure, Except.pure] at h
    cases h
    rfl
  | cons hd tl ih =>
    intro ns a h
    rw [List.mapM_cons] at h
    cases hex : ex hd with
    | error e => rw [hex] at h; simp [Bind.bind, Except.bind] at h
    | ok n =>
      rw [hex] at h
      simp only [Bind.bind, Except.bind] at h
      cases htl : tl.mapM ex with
      | error e => rw [htl] at h; simp [pure, Except.pure] at h
      | ok ms =>
        rw [htl] at h
        simp only [pure, Except.pure, Except.ok.injEq] at h
        subst h
        simp only [List.foldlM_cons, hex, Except.map, List.foldl_cons]
        exact ih ms (max a n) htl

theorem foldl_max_le_self (ns : List Nat) : ∀ a : Nat, a ≤ ns.foldl (fun b n => max b n) a := by
  induction ns with
  | nil => intro a; simp
  | cons hd tl ih =>
    intro a
    simpa using le_trans (le_max_left a hd) (ih (max a hd))

theorem le_foldl_max (ns : List Nat) : ∀ (a n : Nat), n ∈ ns →
    n ≤ ns.foldl (fun b n => max b n) a := by
  induction ns with
  | nil => intro a n h; cases h
  | cons hd tl ih =>
    intro a n h
    rcases List.mem_cons.mp h with h | h
    · subst h
      simpa using le_trans (le_max_right a n) (foldl_max_le_self tl (max a n))
    · exact ih (max a hd) n h

theorem foldlM_ok_of_all (ex : String → Except PyErr Nat) :
    ∀ (files : List String) (a : Nat) (m : Nat),
      files.foldlM (fun bn fn => (ex fn).map (fun n => max bn n)) a = .ok m →
      ∀ fn ∈ files, ∃ n, ex fn = .ok n := by
  intro files
  induction files with
  | nil => intro a m _ fn h; cases h
  | cons hd tl ih =>
    intro a m h fn hmem
    rw [List.foldlM_cons] at h
    cases hex : ex hd with
    | error e => rw [hex] at h; simp [Except.map, Bind.bind, Except.bind] at h
    | ok n =>
      rcases List.mem_cons.mp hmem with hfn | hfn
      · exact ⟨n, hfn ▸ hex⟩
      · rw [hex] at h
        simp only [Except.map, Bind.bind, Except.bind] at h
        exact ih (max a n) m h fn hfn

theorem lookupKey_normalize (exif : Exif) (k : String) :
    lookupKey (normalizeExif exif) k = (lookupKey exif k).map normVal := by
  induction exif with
  | nil => rfl
  | cons hd tl ih =>
    obtain ⟨k', v'⟩ := hd
    by_cases h : k' = k
    · simp [normalizeExif, lookupKey, h]
    · simpa [normalizeExif, lookupKey, h] using ih

theorem strLtB_asymm : ∀ (x y : List Char), strLtB x y = true → strLtB y x = false := by
  intro x
  induction x with
  | nil =>
    intro y h
    cases y with
    | nil => simp [strLtB] at h
    | cons b bs => simp [strLtB]
  | cons a as ih =>
    intro y h
    cases y with
    | nil => simp [strLtB] at h
    | cons b bs =>
      by_cases hab : a = b
      · subst hab
        simp only [strLtB, if_pos rfl] at h ⊢
        exact ih bs h
      · have hba : ¬ b = a := fun hh => hab hh.symm
        simp only [strLtB, if_neg hab] at h
        simp only [strLtB, if_neg hba]
        simp only [charLtB, decide_eq_true_eq] at h
        simp only [charLtB, decide_eq_false_iff_not]
        omega

theorem parse_datetime_falsy (v : Option Value) (h : pyTruthy v = false) :
    parse_datetime v = sentinelFields := by
  match v with
  | none => rfl
  | some (.num n) => rfl
  | some (.str s) =>
    simp only [pyTruthy, ne_eq, decide_not, Bool.not_eq_false', decide_eq_true_eq] at h
    subst h
    rfl

theorem branch_no_ok_nonempty (fs : List String) (base : String) (fmt : Template)
    (info : Exif) (r : Nat) (info' : Exif)
    (hne : globFilter fs (bnGlobPattern base fmt info) ≠ [])
    (hok : branch_no fs base fmt info = .ok (r, info')) :
    ∃ m, (globFilter fs (bnGlobPattern base fmt info)).foldlM
        (fun bn fn => (extractBn (bnSearchPattern fmt info) fn).map (fun n => max bn n)) 0
        = .ok m
      ∧ r = m + 1 ∧ info' = dinsert info "bn" (.str "([0-9]*)") := by
  rw [branch_no_of_glob _ _ _ _ hne] at hok
  cases hfold : (globFilter fs (bnGlobPattern base fmt info)).foldlM
      (fun bn fn => (extractBn (bnSearchPattern fmt info) fn).map (fun n => max bn n)) 0 with
  | error e => rw [hfold] at hok; simp [Except.map] at hok
  | ok m =>
    rw [hfold] at hok
    simp only [Except.map, Except.ok.injEq, Prod.mk.injEq] at hok
    exact ⟨m, rfl, hok.1.symm, hok.2.symm⟩

theorem sortExifs_single (r : Exif) (v : Value) (h : lookupKey r "FileName" = some v) :
    sortExifs [r] = .ok [r] := by
  cases v with
  | str s =>
    simp [sortExifs, sortKeys, h, Except.map, Bind.bind, Except.bind,
      isStrV, sortByKey, insertBy]
  | num n =>
    simp [sortExifs, sortKeys, h, Except.map, Bind.bind, Except.bind,
      isStrV, sortByKey, insertBy]

theorem sortExifs_pair (r1 r2 : Exif) (kA kB : String)
    (h1 : lookupKey r1 "FileName" = some (.str kA))
    (h2 : lookupKey r2 "FileName" = some (.str kB))
    (hlt : strLtB kA.toList kB.toList = true) :
    sortExifs [r1, r2] = .ok [r1, r2] ∧ sortExifs [r2, r1] = .ok [r1, r2] := by
  have hgt : strLtB kB.toList kA.toList = false := strLtB_asymm _ _ hlt
  have hf1 : fileNameStr r1 = kA := by simp [fileNameStr, h1]
  have hf2 : fileNameStr r2 = kB := by simp [fileNameStr, h2]
  simp only [String.toList] at hlt hgt
  constructor
  · simp [sortExifs, sortKeys, h1, h2, Except.map, Bind.bind, Except.bind,
      isStrV, sortByKey, insertBy, hf1, hf2, String.toList, hlt, hgt]
  · simp [sortExifs, sortKeys, h1, h2, Except.map, Bind.bind, Except.bind,
      isStrV, sortByKey, insertBy, hf1, hf2, String.toList, hlt, hgt]

theorem is_movie_iff (exif : Exif) :
    is_movie exif = true ↔
      ∃ k ∈ exif.map Prod.fst, strContainsSub k "FrameRate" = true := by
  constructor
  · intro h
    simp only [is_movie, decide_eq_true_eq] at h
    rcases List.exists_mem_of_length_pos h with ⟨k, hk⟩
    rcases List.mem_filter.mp hk with ⟨hmem, hp⟩
    exact ⟨k, hmem, hp⟩
  · rintro ⟨k, hmem, hp⟩
    simp only [is_movie, decide_eq_true_eq]
    exact List.length_pos.mpr (fun hnil =>
      (List.filter_eq_nil_iff.mp hnil) k hmem (by simp [hp]))

theorem charIn_val (lo hi c : Char) (h : charIn lo hi c = true) :
    lo.toNat ≤ c.toNat ∧ c.toNat ≤ hi.toNat := by
  simpa [charIn] using h

theorem parseMonth_range (l : List Char) (mo : Nat) (rest : List Char)
    (h : parseMonth l = some (mo, rest)) : 1 ≤ mo ∧ mo ≤ 12 := by
  unfold parseMonth at h
  split at h
  · rename_i c rest'
    split at h
    · rename_i hc
      obtain ⟨ha, hb⟩ := charIn_val _ _ _ hc
      have h0 : ('0' : Char).toNat = 48 := rfl
      have h2 : ('2' : Char).toNat = 50 := rfl
      rw [h0] at ha; rw [h2] at hb
      simp only [Option.some.injEq, Prod.mk.injEq] at h
      have := h.1
      simp only [digitVal, h0] at this
      omega
    · simp only [Option.some.injEq, Prod.mk.injEq] at h
      omega
  · rename_i c rest'
    split at h
    · rename_i hc
      obtain ⟨ha, hb⟩ := charIn_val _ _ _ hc
      have h0 : ('0' : Char).toNat = 48 := rfl
      have h1 : ('1' : Char).toNat = 49 := rfl
      have h9 : ('9' : Char).toNat = 57 := rfl
      rw [h1] at ha; rw [h9] at hb
      simp only [Option.some.injEq, Prod.mk.injEq] at h
      have := h.1
      simp only [digitVal, h0] at this
      omega
    · cases h
  · rename_i c rest'
    split at h
    · rename_i hc
      obtain ⟨ha, hb⟩ := charIn_val _ _ _ hc
      have h0 : ('0' : Char).toNat = 48 := rfl
      have h1 : ('1' : Char).toNat = 49 := rfl
      have h9 : ('9' : Char).toNat = 57 := rfl
      rw [h1] at ha; rw [h9] at hb
      simp only [Option.some.injEq, Prod.mk.injEq] at h
      have := h.1
      simp only [digitVal, h0] at this
      omega
    · cases h
  · cases h

theorem parseHour_range (l : List Char) (hr : Nat) (rest : List Char)
    (h : parseHour l = some (hr, rest)) : hr ≤ 23 := by
  have h0 : ('0' : Char).toNat = 48 := rfl
  unfold parseHour at h
  split at h
  · split at h
    · rename_i hc
      obtain ⟨ha, hb⟩ := charIn_val _ _ _ hc
      have h3 : ('3' : Char).toNat = 51 := rfl
      rw [h0] at ha; rw [h3] at hb
      simp only [Option.some.injEq, Prod.mk.injEq] at h
      have := h.1
      simp only [digitVal, h0] at this
      omega
    · simp only [Option.some.injEq, Prod.mk.injEq] at h
      omega
  · split at h
    · rename_i hc
      obtain ⟨ha, hb⟩ := charIn_val _ _ _ hc
      have h9 : ('9' : Char).toNat = 57 := rfl
      rw [h0] at ha; rw [h9] at hb
      simp only [Option.some.injEq, Prod.mk.injEq] at h
      have := h.1
      simp only [digitVal, h0] at this
      omega
    · simp only [Option.some.injEq, Prod.mk.injEq] at h
      omega
  · split at h
    · rename_i hc
      obtain ⟨ha, hb⟩ := charIn_val _ _ _ hc
      have h9 : ('9' : Char).toNat = 57 := rfl
      rw [h0] at ha; rw [h9] at hb
      simp only [Option.some.injEq, Prod.mk.injEq] at h
      have := h.1
      simp only [digitVal, h0] at this
      omega
    · simp only [Option.some.injEq, Prod.mk.injEq] at h
      omega
  · split at h
    · rename_i hc
      obtain ⟨ha, hb⟩ := charIn_val _ _ _ hc
      have h9 : ('9' : Char).toNat = 57 := rfl
      rw [h0] at ha; rw [h9] at hb
      simp only [Option.some.injEq, Prod.mk.injEq] at h
      have := h.1
      simp only [digitVal, h0] at this
      omega
    · cases h
  · cases h

theorem parseMin_range (l : List Char) (mi : Nat) (rest : List Char)
    (h : parseMin l = some (mi, rest)) : mi ≤ 59 := by
  have h0 : ('0' : Char).toNat = 48 := rfl
  have h5 : ('5' : Char).toNat = 53 := rfl
  have h9 : ('9' : Char).toNat = 57 := rfl
  unfold parseMin at h
  split at h
  · split at h
    · rename_i hc
      rw [Bool.and_eq_true] at hc
      obtain ⟨ha1, ha2⟩ := charIn_val _ _ _ hc.1
      obtain ⟨hb1, hb2⟩ := charIn_val _ _ _ hc.2
      rw [h0] at ha1 hb1; rw [h5] at ha2; rw [h9] at hb2
      simp only [Option.some.injEq, Prod.mk.injEq] at h
      have := h.1
      simp only [digitVal, h0] at this
      omega
    · split at h
      · rename_i hc
        obtain ⟨ha, hb⟩ := charIn_val _ _ _ hc
        rw [h0] at ha; rw [h9] at hb
        simp only [Option.some.injEq, Prod.mk.injEq] at h
        have := h.1
        simp only [digitVal, h0] at this
        omega
      · cases h
  · split at h
    · rename_i hc
      obtain ⟨ha, hb⟩ := charIn_val _ _ _ hc
      rw [h0] at ha; rw [h9] at hb
      simp only [Option.some.injEq, Prod.mk.injEq] at h
      have := h.1
      simp only [digitVal, h0] at this
      omega
    · cases h
  · cases h

theorem daysInMonth_le (y m : Nat) : daysInMonth y m ≤ 31 := by
  unfold daysInMonth
  split
  · split <;> omega
  · split <;> omega

theorem strptime19_ranges (l : List Char) (dt : DT) (h : strptime19 l = some dt) :
    1 ≤ dt.year ∧ 1 ≤ dt.month ∧ dt.month ≤ 12 ∧ 1 ≤ dt.day ∧ dt.day ≤ 31 ∧
      dt.hour ≤ 23 ∧ dt.minute ≤ 59 ∧ dt.second ≤ 59 := by
  simp only [strptime19, bind, Option.bind] at h
  split at h
  · cases h
  rename_i p1 hp1
  obtain ⟨y, r1⟩ := p1
  dsimp only at h
  split at h
  · cases h
  rename_i r2 hr2
  dsimp only at h
  split at h
  · cases h
  rename_i p2 hp2
  obtain ⟨mo, r3⟩ := p2
  dsimp only at h
  split at h
  · cases h
  rename_i r4 hr4
  dsimp only at h
  split at h
  · cases h
  rename_i p3 hp3
  obtain ⟨d, r5⟩ := p3
  dsimp only at h
  split at h
  · cases h
  rename_i r6 hr6
  dsimp only at h
  split at h
  · cases h
  rename_i p4 hp4
  obtain ⟨hh, r7⟩ := p4
  dsimp only at h
  split at h
  · cases h
  rename_i r8 hr8
  dsimp only at h
  split at h
  · cases h
  rename_i p5 hp5
  obtain ⟨mi, r9⟩ := p5
  dsimp only at h
  split at h
  · cases h
  rename_i r10 hr10
  dsimp only at h
  split at h
  · cases h
  rename_i p6 hp6
  obtain ⟨s, r11⟩ := p6
  dsimp only at h
  split at h
  · rename_i hvalid
    simp only [Option.some.injEq] at h
    subst h
    obtain ⟨hmo1, hmo2⟩ := parseMonth_range _ _ _ hp2
    have hd31 : d ≤ 31 := le_trans hvalid.2.2.2.1 (daysInMonth_le y mo)
    have hhr : hh ≤ 23 := parseHour_range _ _ _ hp4
    have hmi : mi ≤ 59 := parseMin_range _ _ _ hp5
    exact ⟨hvalid.2.1, hmo1, hmo2, hvalid.2.2.1, hd31, hhr, hmi, hvalid.2.2.2.2⟩
  · cases h

theorem pad2_len : ∀ n ≤ 61, (pad2 n).length = 2 := by decide

/-- The truthiness filter the spec's first-non-empty selection applies to one
candidate. -/
theorem chain_spec (cs : List (Option Value)) (base : Option Value) :
    parse_datetime (cs.foldr pyOrV base)
      = ((cs ++ [base]).findSome? (fun ov => match ov with
          | some v => if pyTruthy (some v) then some v else none
          | none => none)).elim sentinelFields (fun v => parse_datetime (some v)) := by
  induction cs with
  | nil =>
    cases base with
    | none => rfl
    | some v =>
      by_cases ht : pyTruthy (some v) = true
      · simp [List.findSome?, ht]
      · rw [Bool.not_eq_true] at ht
        simp [List.findSome?, ht, parse_datetime_falsy _ ht]
  | cons c cs ih =>
    by_cases ht : pyTruthy c = true
    · cases c with
      | none => simp [pyTruthy] at ht
      | some v =>
        simp [pyOrV, ht, List.findSome?]
    · rw [Bool.not_eq_true] at ht
      have hskip : (fun ov => match ov with
          | some v => if pyTruthy (some v) then some v else none
          | none => none) c = none := by
        cases c with
        | none => rfl
        | some v => simp [ht]
      simp only [List.foldr_cons, pyOrV, ht, Bool.false_eq_true, if_false,
        List.cons_append, List.findSome?_cons, hskip]
      exact ih

/-! ### Claim theorems -/

/-- Claim C1: for every output base directory, format template and normalized
attribute mapping, `branch_no` returns 0 when the filesystem glob over the
pattern-mode rendering matches no file; otherwise it returns `max + 1` where
`max` is the maximum of the branch numbers extracted from the matched paths;
in particular with files at branch numbers 0 and 1 for the same rendered
prefix it returns 2. -/
theorem claim_C1_branch_no (fs : List String) (base : String) (fmt : Template) (info : Exif) :
    (globFilter fs (bnGlobPattern base fmt info) = [] →
      branch_no fs base fmt info = .ok (0, dinsert info "bn" (.str "[0-9]*"))) ∧
    (∀ ns : List Nat, globFilter fs (bnGlobPattern base fmt info) ≠ [] →
      (globFilter fs (bnGlobPattern base fmt info)).mapM
          (extractBn (bnSearchPattern fmt info)) = .ok ns →
      branch_no fs base fmt info
        = .ok (ns.foldl (fun b n => max b n) 0 + 1, dinsert info "bn" (.str "([0-9]*)"))) ∧
    branch_no demoFs2 "/out" demoFmt (photoInfoOf demoExifA)
      = .ok (2, dinsert (photoInfoOf demoExifA) "bn" (.str "([0-9]*)")) := by
  refine ⟨branch_no_of_empty_glob fs base fmt info, ?_, rfl⟩
  intro ns hne hmap
  rw [branch_no_of_glob fs base fmt info hne]
  have hl : (globFilter fs (bnGlobPattern base fmt info)).foldlM
      (fun bn fn => (extractBn (bnSearchPattern fmt info) fn).map (fun n => max bn n)) 0
      = .ok (ns.foldl (fun b n => max b n) 0) :=
    foldlM_max_of_mapM _ _ _ _ hmap
  rw [hl]
  rfl

/-- Witness for C1 at concrete inputs: empty tree gives 0; branch files 0 and
1 give max 1 plus 1. -/
theorem claim_C1_witness :
    branch_no [] "/out" demoFmt (photoInfoOf demoExifA)
      = .ok (0, dinsert (photoInfoOf demoExifA) "bn" (.str "[0-9]*")) ∧
    branch_no demoFs2 "/out" demoFmt (photoInfoOf demoExifA)
      = .ok (([0, 1] : List Nat).foldl (fun b n => max b n) 0 + 1,
          dinsert (photoInfoOf demoExifA) "bn" (.str "([0-9]*)")) := by
  constructor
  · exact (claim_C1_branch_no [] "/out" demoFmt (photoInfoOf demoExifA)).1 rfl
  · exact (claim_C1_branch_no demoFs2 "/out" demoFmt (photoInfoOf demoExifA)).2.1
      [0, 1] (by decide) rfl

/-- Claim C2, counterexample: with base `/o1b`, template `{bn}b` and files
`/o1b/5b`, `/o1b/2b`, the capture pattern `([0-9]*)b` first matches inside
the base path (capturing 1 from both files), the resolver succeeds with 2,
and the concrete destination `/o1b/2b` EQUALS a matched on-disk path — the
claimed collision-freedom fails. -/
theorem claim_C2_counterexample :
    destPath cexFs cexExif "/o1b" cexFmt = .ok "/o1b/2b" ∧
    "/o1b/2b" ∈ globFilter cexFs (bnGlobPattern "/o1b" cexFmt (photoInfoOf cexExif)) := by
  exact ⟨rfl, by decide⟩

/-- Claim C2, amended: the branch number `branch_no` returns is strictly
greater than every branch number extracted from the matched paths; the
further claim that the concrete destination therefore differs from every
matched path does not hold (the capture can match at an unintended position,
see the counterexample). -/
theorem claim_C2_branch_gt (fs : List String) (base : String) (fmt : Template)
    (info : Exif) (r : Nat) (info' : Exif) (ns : List Nat)
    (hok : branch_no fs base fmt info = .ok (r, info'))
    (hex : (globFilter fs (bnGlobPattern base fmt info)).mapM
        (extractBn (bnSearchPattern fmt info)) = .ok ns) :
    ∀ n ∈ ns, n < r := by
  intro n hn
  by_cases hemp : globFilter fs (bnGlobPattern base fmt info) = []
  · rw [hemp] at hex
    simp only [List.mapM_nil, pure, Except.pure, Except.ok.injEq] at hex
    subst hex
    cases hn
  · obtain ⟨m, hfold, hr, _⟩ := branch_no_ok_nonempty fs base fmt info r info' hemp hok
    rw [foldlM_max_of_mapM _ _ _ _ hex] at hfold
    simp only [Except.ok.injEq] at hfold
    have hle := le_foldl_max ns 0 n hn
    omega

/-- Witness for the amended C2 at a concrete input: both extracted branch
numbers (0 and 1) are below the returned one (2). -/
theorem claim_C2_witness : (0 : Nat) < 2 ∧ (1 : Nat) < 2 :=
  ⟨claim_C2_branch_gt demoFs2 "/out" demoFmt (photoInfoOf demoExifA) 2
      (dinsert (photoInfoOf demoExifA) "bn" (.str "([0-9]*)")) [0, 1] rfl rfl 0 (by decide),
   claim_C2_branch_gt demoFs2 "/out" demoFmt (photoInfoOf demoExifA) 2
      (dinsert (photoInfoOf demoExifA) "bn" (.str "([0-9]*)")) [0, 1] rfl rfl 1 (by decide)⟩

/-- Claim C3, counterexample: for `CreateDate = "0005:01:02 03:04:05"` the
parse succeeds but `y` is emitted as `"5"` — `strftime('%Y')` does not
zero-pad the year below 1000 — so the claimed zero-padding of `y` fails. -/
theorem claim_C3_counterexample :
    lookupKey (parse_datetime (some (.str "0005:01:02 03:04:05"))) "y" = some (.str "5") ∧
    ("5" : String).length ≠ 4 := by
  exact ⟨rfl, by decide⟩

/-- Claim C3, amended: the date source is the first non-empty value among
CreateDate, DateCreated, DateTimeOriginal, FileModifyDate in that order; the
first 19 characters are parsed as `YYYY:MM:DD HH:MM:SS` and on success the
fields are emitted with `m,d,H,M,S` zero-padded to two digits and `y` the
unpadded decimal year (four digits exactly when the year is at least 1000);
the date-time separator is any nonempty whitespace run, as `_strptime`
rewrites the format's space to a whitespace-run pattern; on any parse
failure, or no date source at all, the sentinel
`'0000','00','00','00','00','00'` is emitted; the function is total (never
raises, never aborts the batch). -/
theorem claim_C3_date_handling :
    (∀ exif : Exif, parse_datetime (dateChain exif)
        = (specFirstDate exif).elim sentinelFields (fun v => parse_datetime (some v))) ∧
    (∀ v : Option Value,
        parse_datetime v = sentinelFields ∨
        ∃ (s : String) (dt : DT), v = some (.str s) ∧
          strptime19 (s.toList.take 19) = some dt ∧ parse_datetime v = dtFields dt) ∧
    (∀ (l : List Char) (dt : DT), strptime19 l = some dt →
        (pad2 dt.month).length = 2 ∧ (pad2 dt.day).length = 2 ∧ (pad2 dt.hour).length = 2 ∧
        (pad2 dt.minute).length = 2 ∧ (pad2 dt.second).length = 2) ∧
    parse_datetime (some (.str "2021:03:05 07:09:11"))
      = [("y", .str "2021"), ("m", .str "03"), ("d", .str "05"),
         ("H", .str "07"), ("M", .str "09"), ("S", .str "11")] ∧
    parse_datetime (some (.str "2020:01:02\t03:04:05"))
      = [("y", .str "2020"), ("m", .str "01"), ("d", .str "02"),
         ("H", .str "03"), ("M", .str "04"), ("S", .str "05")] ∧
    parse_datetime none = sentinelFields := by
  refine ⟨?_, ?_, ?_, rfl, rfl, rfl⟩
  · intro exif
    exact chain_spec [lookupKey exif "CreateDate", lookupKey exif "DateCreated",
      lookupKey exif "DateTimeOriginal"] (lookupKey exif "FileModifyDate")
  · intro v
    match v with
    | none => exact Or.inl rfl
    | some (.num n) => exact Or.inl rfl
    | some (.str s) =>
      cases hdt : strptime19 (s.toList.take 19) with
      | none =>
        left
        simp only [String.toList] at hdt
        simp [parse_datetime, hdt]
      | some dt =>
        right
        refine ⟨s, dt, rfl, hdt, ?_⟩
        simp only [String.toList] at hdt
        simp [parse_datetime, hdt]
  · intro l dt h
    obtain ⟨_, _, hmo, _, hd, hh, hmi, hs⟩ := strptime19_ranges l dt h
    exact ⟨pad2_len _ (by omega), pad2_len _ (by omega), pad2_len _ (by omega),
      pad2_len _ (by omega), pad2_len _ (by omega)⟩

/-- Witness for C3 at concrete inputs: the padding conjunct at a successful
parse, and the selection conjunct at a concrete record. -/
theorem claim_C3_witness :
    ((pad2 3).length = 2 ∧ (pad2 5).length = 2 ∧ (pad2 7).length = 2 ∧
      (pad2 9).length = 2 ∧ (pad2 11).length = 2) ∧
    parse_datetime (dateChain demoExifA)
      = (specFirstDate demoExifA).elim sentinelFields (fun v => parse_datetime (some v)) := by
  constructor
  · exact claim_C3_date_handling.2.2.1 ("2021:03:05 07:09:11".toList) ⟨2021, 3, 5, 7, 9, 11⟩ rfl
  · exact claim_C3_date_handling.1 demoExifA

/-- Claim C4: a record is classified as video (and routed to the video root)
iff some attribute key contains the substring `FrameRate`; otherwise it is
routed to the photo root. -/
theorem claim_C4_routing (exif : Exif) :
    (is_movie exif = true ↔
        ∃ k ∈ exif.map Prod.fst, strContainsSub k "FrameRate" = true) ∧
    (∀ cfg : Config, output_base_for cfg exif =
        if is_movie exif then cfg.output_video_base else cfg.output_photo_base) ∧
    is_movie [("VideoFrameRate", .num 30)] = true ∧
    is_movie demoExifA = false := by
  exact ⟨is_movie_iff exif, fun cfg => rfl, rfl, rfl⟩

/-- Claim C5, counterexample: the batch driver sorts by `FileName` before the
`Error` skip, so a batch holding one `Error` record without a `FileName` and
one valid record aborts with `KeyError` and places nothing — not "the valid
record is placed regardless of what fields the Error record carries". -/
theorem claim_C5_counterexample :
    PhotoOrganizer.main ["/in/a.jpg"] [demoErrNoName, demoExifA] demoCfg false
      = .error .keyError := by
  rfl

/-- Claim C5, amended: every record containing `Error` is skipped — no
placement, no abort — provided it carries the `FileName` the pre-skip sort
reads; a batch of one such record and one valid record places exactly the
valid record. -/
theorem claim_C5_error_skip :
    (∀ (fs : List String) (cfg : Config) (mv : Bool) (err : Exif) (v : Value),
        hasKey err "Error" = true → lookupKey err "FileName" = some v →
        PhotoOrganizer.main fs [err] cfg mv = .ok fs) ∧
    PhotoOrganizer.main ["/in/a.jpg"] [demoErrNamed, demoExifA] demoCfg false
      = .ok ["/in/a.jpg", "/out/20200102/Cam/20200102030405-0.jpg"] := by
  constructor
  · intro fs cfg mv err v hE hFN
    unfold main
    rw [sortExifs_single err v hFN]
    simp [Bind.bind, Except.bind, List.foldlM, hE, pure, Except.pure]
  · rfl

/-- Witness for the amended C5 at a concrete input. -/
theorem claim_C5_witness :
    PhotoOrganizer.main ["/in/a.jpg"] [demoErrNamed] demoCfg false = .ok ["/in/a.jpg"] :=
  claim_C5_error_skip.1 ["/in/a.jpg"] demoCfg false demoErrNamed (.str "0err") rfl rfl

/-- Claim C6: the driver processes records in stable ascending `FileName`
order: two records with string keys kA < kB sort to the same order from
either input permutation, and concretely two records rendering to the same
prefix on an empty destination tree get branch numbers 0 and 1 in `FileName`
order, for both input orders. -/
theorem claim_C6_ordering :
    (∀ (r1 r2 : Exif) (kA kB : String),
        lookupKey r1 "FileName" = some (.str kA) →
        lookupKey r2 "FileName" = some (.str kB) →
        strLtB kA.toList kB.toList = true →
        sortExifs [r1, r2] = .ok [r1, r2] ∧ sortExifs [r2, r1] = .ok [r1, r2]) ∧
    (PhotoOrganizer.main demoFs0 [demoExifA, demoExifB] demoCfg false
        = PhotoOrganizer.main demoFs0 [demoExifB, demoExifA] demoCfg false ∧
      destPath demoFs0 demoExifA "/out" demoFmt
        = .ok "/out/20200102/Cam/20200102030405-0.jpg" ∧
      destPath (demoFs0 ++ ["/out/20200102/Cam/20200102030405-0.jpg"]) demoExifB "/out" demoFmt
        = .ok "/out/20200102/Cam/20200102030405-1.jpg" ∧
      PhotoOrganizer.main demoFs0 [demoExifB, demoExifA] demoCfg false
        = .ok (demoFs0 ++ ["/out/20200102/Cam/20200102030405-0.jpg",
                           "/out/20200102/Cam/20200102030405-1.jpg"])) := by
  exact ⟨sortExifs_pair, rfl, rfl, rfl, rfl⟩

/-- Witness for C6 at the two concrete records, both input orders. -/
theorem claim_C6_witness :
    sortExifs [demoExifA, demoExifB] = .ok [demoExifA, demoExifB] ∧
    sortExifs [demoExifB, demoExifA] = .ok [demoExifA, demoExifB] :=
  claim_C6_ordering.1 demoExifA demoExifB "a.jpg" "b.jpg" rfl rfl rfl

/-- Claim C7: when the glob scan matched at least one path in which the
capture pattern finds no match (`re.search` returns `None`), `branch_no`
raises (`.group(1)` on `None`) instead of skipping the path or falling back
to 0. -/
theorem claim_C7_scan_anomaly (fs : List String) (base : String) (fmt : Template)
    (info : Exif) (fn : String)
    (hmem : fn ∈ globFilter fs (bnGlobPattern base fmt info))
    (hnone : reSearchGroup1 (bnSearchPattern fmt info) fn = none) :
    ∃ e : PyErr, branch_no fs base fmt info = .error e := by
  have hne : globFilter fs (bnGlobPattern base fmt info) ≠ [] := by
    intro h
    rw [h] at hmem
    cases hmem
  cases hok : branch_no fs base fmt info with
  | error e => exact ⟨e, rfl⟩
  | ok p =>
    obtain ⟨r, info'⟩ := p
    obtain ⟨m, hfold, _, _⟩ := branch_no_ok_nonempty fs base fmt info r info' hne hok
    obtain ⟨n, hn⟩ := foldlM_ok_of_all _ _ _ _ hfold fn hmem
    rw [extractBn, hnone] at hn
    cases hn

/-- Witness for C7: the template `a^{bn}` renders `^` which the glob treats
literally but the regex treats as an anchor, so the matched file has no
regex match. -/
theorem claim_C7_witness :
    ∃ e : PyErr, branch_no ["/out/a^5"] "/out" caretFmt [] = .error e :=
  claim_C7_scan_anomaly ["/out/a^5"] "/out" caretFmt [] "/out/a^5" (by decide) rfl

/-- Claim C8: normalization copies every binding with spaces replaced by
underscores in string values and non-strings unchanged, and any template
field absent from the mapping renders the literal `Unknown`. -/
theorem claim_C8_normalization :
    (∀ (exif : Exif) (k : String),
        lookupKey (normalizeExif exif) k = (lookupKey exif k).map normVal) ∧
    (∀ (exif : Exif) (k s : String), lookupKey exif k = some (.str s) →
        lookupKey (normalizeExif exif) k = some (.str (pyReplSpace s))) ∧
    (∀ (exif : Exif) (k : String) (n : Int), lookupKey exif k = some (.num n) →
        lookupKey (normalizeExif exif) k = some (.num n)) ∧
    (∀ (info : Exif) (name : String) (pre post : Template), lookupKey info name = none →
        vformat (pre ++ TItem.field name :: post) info
          = vformat pre info ++ "Unknown" ++ vformat post info) ∧
    pyReplSpace "NIKON D750" = "NIKON_D750" := by
  refine ⟨lookupKey_normalize, ?_, ?_, ?_, rfl⟩
  · intro exif k s h
    rw [lookupKey_normalize, h]
    rfl
  · intro exif k n h
    rw [lookupKey_normalize, h]
    rfl
  · intro info name pre post h
    have : pre ++ TItem.field name :: post = pre ++ [TItem.field name] ++ post := by simp
    rw [this, vformat_append, vformat_append]
    have hf : vformat [TItem.field name] info = "Unknown" := by
      simp [vformat, lookupInfo, h, pyStr]
    rw [hf]

/-- Witness for C8 at concrete inputs. -/
theorem claim_C8_witness :
    lookupKey (normalizeExif [("Model", .str "NIKON D750")]) "Model"
      = some (.str (pyReplSpace "NIKON D750")) ∧
    vformat ([TItem.lit "x/"] ++ TItem.field "Model" :: [TItem.lit "-y"]) []
      = vformat [TItem.lit "x/"] [] ++ "Unknown" ++ vformat [TItem.lit "-y"] [] := by
  constructor
  · exact claim_C8_normalization.2.1 [("Model", .str "NIKON D750")] "Model" "NIKON D750" rfl
  · exact claim_C8_normalization.2.2.2.1 [] "Model" [TItem.lit "x/"] [TItem.lit "-y"] rfl

/-- Claim C9: with no file matching the pattern-mode glob, the destination
computation is deterministic — two renderings are the identical string — and
the branch number is 0. -/
theorem claim_C9_determinism (fs : List String) (exif : Exif) (base : String) (fmt : Template)
    (h : globFilter fs (bnGlobPattern base fmt (photoInfoOf exif)) = []) :
    destPath fs exif base fmt = destPath fs exif base fmt ∧
    destPath fs exif base fmt
      = .ok (ospath_join base (vformat fmt (dinsert (photoInfoOf exif) "bn" (.num 0)))) ∧
    branch_no fs base fmt (photoInfoOf exif)
      = .ok (0, dinsert (photoInfoOf exif) "bn" (.str "[0-9]*")) := by
  have hb := branch_no_of_empty_glob fs base fmt (photoInfoOf exif) h
  refine ⟨rfl, ?_, hb⟩
  unfold destPath
  rw [hb]
  simp [Except.map, dinsert_dinsert]

/-- Witness for C9 at a concrete record over an empty destination tree. -/
theorem claim_C9_witness :
    destPath [] demoExifA "/out" demoFmt
      = .ok (ospath_join "/out" (vformat demoFmt
          (dinsert (photoInfoOf demoExifA) "bn" (.num 0)))) ∧
    branch_no [] "/out" demoFmt (photoInfoOf demoExifA)
      = .ok (0, dinsert (photoInfoOf demoExifA) "bn" (.str "[0-9]*")) := by
  have h := claim_C9_determinism [] demoExifA "/out" demoFmt rfl
  exact ⟨h.2.1, h.2.2⟩

/-- Claim C10: `branch_no` leaves the pattern string (not the returned
integer) under `bn` in the mapping it was given — `[0-9]*` when the glob
found nothing, `([0-9]*)` otherwise — while every other key reads unchanged;
`manipulate_file` then overwrites `bn` with the returned number before the
concrete-mode rendering. -/
theorem claim_C10_bn_effect :
    (∀ (fs : List String) (base : String) (fmt : Template) (info : Exif)
        (r : Nat) (info' : Exif),
        branch_no fs base fmt info = .ok (r, info') →
        lookupKey info' "bn" = some (.str
            (if globFilter fs (bnGlobPattern base fmt info) = [] then "[0-9]*"
             else "([0-9]*)")) ∧
        (∀ k : String, k ≠ "bn" → lookupKey info' k = lookupKey info k)) ∧
    (∀ (fs : List String) (exif : Exif) (base : String) (fmt : Template)
        (r : Nat) (info' : Exif),
        branch_no fs base fmt (photoInfoOf exif) = .ok (r, info') →
        destPath fs exif base fmt
          = .ok (ospath_join base (vformat fmt (dinsert info' "bn" (.num (r : Int)))))) := by
  constructor
  · intro fs base fmt info r info' hok
    by_cases hemp : globFilter fs (bnGlobPattern base fmt info) = []
    · rw [branch_no_of_empty_glob fs base fmt info hemp] at hok
      simp only [Except.ok.injEq, Prod.mk.injEq] at hok
      obtain ⟨_, hinfo⟩ := hok
      subst hinfo
      rw [if_pos hemp]
      exact ⟨lookupKey_dinsert_self _ _ _, fun k hk => lookupKey_dinsert_ne _ _ _ _ hk⟩
    · obtain ⟨m, _, _, hinfo⟩ := branch_no_ok_nonempty fs base fmt info r info' hemp hok
      subst hinfo
      rw [if_neg hemp]
      exact ⟨lookupKey_dinsert_self _ _ _, fun k hk => lookupKey_dinsert_ne _ _ _ _ hk⟩
  · intro fs exif base fmt r info' hok
    unfold destPath
    rw [hok]
    rfl

/-- Witness for C10 at concrete inputs (nonempty glob case). -/
theorem claim_C10_witness :
    lookupKey (dinsert (photoInfoOf demoExifA) "bn" (.str "([0-9]*)")) "bn"
      = some (.str (if globFilter demoFs2 (bnGlobPattern "/out" demoFmt
            (photoInfoOf demoExifA)) = [] then "[0-9]*" else "([0-9]*)")) ∧
    destPath demoFs2 demoExifA "/out" demoFmt
      = .ok (ospath_join "/out" (vformat demoFmt
          (dinsert (dinsert (photoInfoOf demoExifA) "bn" (.str "([0-9]*)")) "bn"
            (.num (2 : Int))))) := by
  constructor
  · exact (claim_C10_bn_effect.1 demoFs2 "/out" demoFmt (photoInfoOf demoExifA) 2
      (dinsert (photoInfoOf demoExifA) "bn" (.str "([0-9]*)")) rfl).1
  · exact claim_C10_bn_effect.2 demoFs2 demoExifA "/out" demoFmt 2
      (dinsert (photoInfoOf demoExifA) "bn" (.str "([0-9]*)")) rfl

end PhotoOrganizer
